import Mathlib

/-!
Shallow embedding of `src/app.py` (RentUZ MVP backend): the car-listing
query engine (`list_cars`), the seeding upserts (`admin_seed` with its
partner and car `INSERT ... ON CONFLICT ... DO UPDATE` statements), the
startup schema provisioning (`on_startup`), `_dsn_fix`, and the order of
top-level module statements.

Modelling conventions:
* SQL `NULL`-able columns become `Option _`; SQL three-valued comparison
  semantics are made explicit (`NULL ILIKE p`, `NULL <= x`, `NULL = b`
  are not satisfied).
* `NUMERIC` columns are modelled as `Int` (all values appearing in the
  program are integers), timestamps as `Nat` (`now()` is passed in).
* JSONB payloads (`photos`, `conditions`) are modelled by the small
  value type `JVal` — the program never inspects them, it only stores
  and returns them.
* The database tables are lists of rows plus a next-serial counter; the
  `UNIQUE` constraints are carried as hypotheses where a claim needs
  them.
-/

namespace RentCar

/-- Char-list version of "starts with": `startsWith hay pat` is true iff
`pat` is an initial segment of `hay`. -/
def startsWith : List Char → List Char → Bool
  | _, [] => true
  | [], _ :: _ => false
  | a :: as, b :: bs => (a == b) && startsWith as bs

/-- Containment test: `containsSeg hay pat` is true iff `pat` occurs as
a contiguous segment of `hay` (SQL LIKE with wildcard markers on both
sides). -/
def containsSeg : List Char → List Char → Bool
  | [], pat => pat.isEmpty
  | a :: t, pat => startsWith (a :: t) pat || containsSeg t pat

/-- Lower-cased character list of a string. -/
def lowerChars (s : String) : List Char :=
  s.toList.map Char.toLower

/-- Case-insensitive containment: SQL ILIKE with wildcard markers on
both sides, for a non-null haystack. -/
def containsCI (hay pat : String) : Bool :=
  containsSeg (lowerChars hay) (lowerChars pat)

/-- A JSON leaf value, as far as this program needs one. -/
inductive JLeaf where
  | str (s : String)
  | bool (b : Bool)
deriving Repr, DecidableEq

/-- A JSONB payload, as far as this program needs one (the seed
payloads are arrays of strings and flat objects; the service only
stores and echoes them). -/
inductive JVal where
  | arr (xs : List String)
  | obj (kvs : List (String × JLeaf))
deriving Repr, DecidableEq

/-- A row of the `cars` table (schema from the DDL in `on_startup`). -/
structure Car where
  id : Nat
  partner_id : Nat
  external_id : Option String
  title : Option String
  brand : Option String
  model : Option String
  year : Option Int
  car_class : Option String
  transmission : Option String
  fuel : Option String
  seats : Option Int
  city : Option String
  price_per_day : Option Int
  currency : Option String
  deposit : Option Int
  deposit_currency : Option String
  with_driver : Option Bool
  free_km_per_day : Option Int
  photos : JVal
  conditions : JVal
  source_url : Option String
  available : Option Bool
  updated_at : Nat
  created_at : Nat
deriving Repr, DecidableEq

/-- A row of the `partners` table (schema from the DDL in `on_startup`).
Note: the table has a `created_at` column but no `updated_at` column. -/
structure Partner where
  id : Nat
  name : String
  slug : Option String
  site_url : Option String
  tg_contact : Option String
  city : Option String
  phone : Option String
  commission_pct : Int
  is_active : Bool
  created_at : Nat
deriving Repr, DecidableEq

/-- The projection returned by `GET /cars`:
`SELECT id, title, brand, model, year, class, city, price_per_day,
currency, photos`. -/
structure CarSummary where
  id : Nat
  title : Option String
  brand : Option String
  model : Option String
  year : Option Int
  car_class : Option String
  city : Option String
  price_per_day : Option Int
  currency : Option String
  photos : JVal
deriving Repr, DecidableEq

/-- Projection of a `cars` row into the public listing shape. -/
def toSummary (c : Car) : CarSummary :=
  { id := c.id, title := c.title, brand := c.brand, model := c.model,
    year := c.year, car_class := c.car_class, city := c.city,
    price_per_day := c.price_per_day, currency := c.currency,
    photos := c.photos }

/-! ## The listing query (`list_cars`, src/app.py lines 90-116) -/

/-- Python truthiness on an optional string parameter: `if city:` fires
only when the value is present and non-empty. -/
def strFilterActive (x : Option String) : Option String :=
  match x with
  | none => none
  | some s => if s = "" then none else some s

/-- SQL ILIKE of the nullable `city` column against the wrapped filter
string: a `NULL` city never matches. -/
def cityMatch (c : Car) (s : String) : Bool :=
  match c.city with
  | none => false
  | some cs => containsCI cs s

/-- SQL ILIKE of the nullable `class` column against the wrapped filter
string. -/
def classMatch (c : Car) (s : String) : Bool :=
  match c.car_class with
  | none => false
  | some cs => containsCI cs s

/-- SQL `price_per_day <= p` on the nullable price column: a `NULL`
price never satisfies the comparison. -/
def priceMatch (c : Car) (p : Int) : Bool :=
  match c.price_per_day with
  | none => false
  | some q => decide (q ≤ p)

/-- SQL `with_driver = b` on the nullable flag: `NULL` never equals. -/
def driverMatch (c : Car) (b : Bool) : Bool :=
  c.with_driver == some b

/-- The WHERE clause built by `list_cars`: the fixed base predicate
`available = TRUE` plus one conjunct per active filter.  String filters
are active per Python truthiness (`if city:`), the numeric and boolean
filters per `is not None`. -/
def rowMatches (city car_class : Option String) (max_price : Option Int)
    (with_driver : Option Bool) (c : Car) : Bool :=
  (c.available == some true)
  && (match strFilterActive city with
      | none => true
      | some s => cityMatch c s)
  && (match strFilterActive car_class with
      | none => true
      | some s => classMatch c s)
  && (match max_price with
      | none => true
      | some p => priceMatch c p)
  && (match with_driver with
      | none => true
      | some b => driverMatch c b)

/-- The clause `ORDER BY price_per_day ASC NULLS LAST, updated_at DESC`
as a Bool comparison: `carLEb a b` says `a` may come no later than `b`. -/
def carLEb (a b : Car) : Bool :=
  match a.price_per_day, b.price_per_day with
  | none, none => decide (b.updated_at ≤ a.updated_at)
  | none, some _ => false
  | some _, none => true
  | some p, some q =>
      decide (p < q) || (decide (p = q) && decide (b.updated_at ≤ a.updated_at))

/-- The ordering relation of the listing query, as a proposition. -/
def carLE (a b : Car) : Prop := carLEb a b = true

instance : DecidableRel carLE := fun x y => inferInstanceAs (Decidable (carLEb x y = true))

/-- The rows fetched by `GET /cars` (before JSON projection): if the
pool was never created, return `[]` without touching the query; else
filter by the built WHERE clause, order by price ASC NULLS LAST then
`updated_at` DESC, and apply `OFFSET`/`LIMIT`.  PostgreSQL rejects a
negative `LIMIT` or `OFFSET`, modelled as `none`. -/
def list_cars_rows (pool : Option (List Car)) (city car_class : Option String)
    (max_price : Option Int) (with_driver : Option Bool)
    (limit offs : Int) : Option (List Car) :=
  match pool with
  | none => some []
  | some db =>
    if limit < 0 ∨ offs < 0 then none
    else
      some ((((db.filter (rowMatches city car_class max_price with_driver)).insertionSort
        carLE).drop offs.toNat).take limit.toNat)

/-- The `GET /cars` endpoint: the fetched rows projected to the public
`CarSummary` shape. -/
def list_cars (pool : Option (List Car)) (city car_class : Option String)
    (max_price : Option Int) (with_driver : Option Bool)
    (limit offs : Int) : Option (List CarSummary) :=
  (list_cars_rows pool city car_class max_price with_driver limit offs).map
    (List.map toSummary)

/-! ## Upserts (`admin_seed`, src/app.py lines 128-210) -/

/-- Generic `INSERT ... ON CONFLICT ... DO UPDATE ... RETURNING id` over
a table with a serial id: if some row satisfies the conflict key `key`,
update that row with `upd` and return its id; otherwise append a fresh
row built by `mk` from the next serial value.  Returns (table, next
serial, returned id).  Under the `UNIQUE` constraint at most one row can
match `key`. -/
def upsertGen (key : α → Bool) (upd : α → α) (mk : Nat → α) (getId : α → Nat) :
    List α → Nat → List α × Nat × Nat
  | [], nid => ([mk nid], nid + 1, nid)
  | x :: t, nid =>
    if key x then (upd x :: t, nid, getId x)
    else
      let r := upsertGen key upd mk getId t nid
      (x :: r.1, r.2.1, r.2.2)

/-- The bind parameters of the partner `INSERT` in `admin_seed`. -/
structure PartnerInput where
  name : String
  slug : Option String
  site_url : Option String
  city : Option String
  phone : Option String
  commission_pct : Int
deriving Repr, DecidableEq

/-- The clause `ON CONFLICT (slug)`: a conflict arises only with a row whose
(non-null) `slug` equals the inserted one — SQL `UNIQUE` never treats
`NULL` as conflicting. -/
def partnerKey (inp : PartnerInput) (p : Partner) : Bool :=
  inp.slug.isSome && (p.slug == inp.slug)

/-- The `DO UPDATE SET` of the partner upsert: it rewrites `name`,
`site_url`, `city`, `phone`, `commission_pct` and nothing else (the
table has no `updated_at` column, and `created_at` is untouched). -/
def partnerUpd (inp : PartnerInput) (p : Partner) : Partner :=
  { p with
    name := inp.name,
    site_url := inp.site_url,
    city := inp.city,
    phone := inp.phone,
    commission_pct := inp.commission_pct }

/-- A freshly inserted partner row: `tg_contact` is never supplied,
`is_active` defaults to `TRUE`, `created_at` defaults to `now()`. -/
def partnerNew (now : Nat) (inp : PartnerInput) (id : Nat) : Partner :=
  { id := id, name := inp.name, slug := inp.slug, site_url := inp.site_url,
    tg_contact := none, city := inp.city, phone := inp.phone,
    commission_pct := inp.commission_pct, is_active := true, created_at := now }

/-- The partner upsert of `admin_seed` (src/app.py lines 144-155). -/
def upsertPartner (now : Nat) (tbl : List Partner) (nid : Nat)
    (inp : PartnerInput) : List Partner × Nat × Nat :=
  upsertGen (partnerKey inp) (partnerUpd inp) (partnerNew now inp) Partner.id tbl nid

/-- The bind parameters of the car `INSERT` in `admin_seed`. -/
structure CarInput where
  partner_id : Nat
  external_id : Option String
  title : Option String
  brand : Option String
  model : Option String
  year : Option Int
  car_class : Option String
  transmission : Option String
  fuel : Option String
  seats : Option Int
  city : Option String
  price_per_day : Option Int
  currency : Option String
  deposit : Option Int
  deposit_currency : Option String
  with_driver : Option Bool
  free_km_per_day : Option Int
  photos : JVal
  conditions : JVal
  source_url : Option String
  available : Option Bool
deriving Repr, DecidableEq

/-- The clause `ON CONFLICT (partner_id, external_id)`: conflicts only with a row
agreeing on both key columns, with a non-null `external_id` (SQL
`UNIQUE` treats `NULL` as distinct). -/
def carKey (inp : CarInput) (c : Car) : Bool :=
  inp.external_id.isSome && (c.partner_id == inp.partner_id)
    && (c.external_id == inp.external_id)

/-- The `DO UPDATE SET` of the car upsert: every mutable field from the
input plus `updated_at = now()`; `id` and `created_at` are untouched. -/
def carUpd (now : Nat) (inp : CarInput) (c : Car) : Car :=
  { c with
    title := inp.title,
    brand := inp.brand,
    model := inp.model,
    year := inp.year,
    car_class := inp.car_class,
    transmission := inp.transmission,
    fuel := inp.fuel,
    seats := inp.seats,
    city := inp.city,
    price_per_day := inp.price_per_day,
    currency := inp.currency,
    deposit := inp.deposit,
    deposit_currency := inp.deposit_currency,
    with_driver := inp.with_driver,
    free_km_per_day := inp.free_km_per_day,
    photos := inp.photos,
    conditions := inp.conditions,
    source_url := inp.source_url,
    available := inp.available,
    updated_at := now }

/-- A freshly inserted car row: `updated_at` is set to `now()`
explicitly by the `VALUES`, `created_at` defaults to `now()`. -/
def carNew (now : Nat) (inp : CarInput) (id : Nat) : Car :=
  { id := id, partner_id := inp.partner_id, external_id := inp.external_id,
    title := inp.title, brand := inp.brand, model := inp.model,
    year := inp.year, car_class := inp.car_class,
    transmission := inp.transmission, fuel := inp.fuel, seats := inp.seats,
    city := inp.city, price_per_day := inp.price_per_day,
    currency := inp.currency, deposit := inp.deposit,
    deposit_currency := inp.deposit_currency, with_driver := inp.with_driver,
    free_km_per_day := inp.free_km_per_day, photos := inp.photos,
    conditions := inp.conditions, source_url := inp.source_url,
    available := inp.available, updated_at := now, created_at := now }

/-- The car upsert of `admin_seed` (src/app.py lines 158-208). -/
def upsertCar (now : Nat) (tbl : List Car) (nid : Nat)
    (inp : CarInput) : List Car × Nat × Nat :=
  upsertGen (carKey inp) (carUpd now inp) (carNew now inp) Car.id tbl nid

/-- The 19 mutable fields of a car row, in the order of the
`DO UPDATE SET` list. -/
def carMut (c : Car) :=
  (c.title, c.brand, c.model, c.year, c.car_class, c.transmission, c.fuel,
   c.seats, c.city, c.price_per_day, c.currency, c.deposit,
   c.deposit_currency, c.with_driver, c.free_km_per_day, c.photos,
   c.conditions, c.source_url, c.available)

/-- The same 19 fields read off a `CarInput`. -/
def carInputMut (i : CarInput) :=
  (i.title, i.brand, i.model, i.year, i.car_class, i.transmission, i.fuel,
   i.seats, i.city, i.price_per_day, i.currency, i.deposit,
   i.deposit_currency, i.with_driver, i.free_km_per_day, i.photos,
   i.conditions, i.source_url, i.available)

/-- The mutable fields of a partner row (the `DO UPDATE SET` list of the
partner upsert). -/
def partnerMut (p : Partner) :=
  (p.name, p.site_url, p.city, p.phone, p.commission_pct)

/-- The same fields read off a `PartnerInput`. -/
def partnerInputMut (i : PartnerInput) :=
  (i.name, i.site_url, i.city, i.phone, i.commission_pct)

/-! ## The seed endpoint (`admin_seed`, src/app.py lines 128-210) -/

/-- Database state behind the connection pool. -/
structure DB where
  partners : List Partner
  cars : List Car
  nextPartnerId : Nat
  nextCarId : Nat
deriving Repr, DecidableEq

/-- Outcome of `GET /admin/seed`: an `HTTPException`, a 200 response
with an ok=false body, or a 200 success body. -/
inductive SeedOutcome where
  | httpError (status : Nat) (detail : String)
  | okFalse (err : String)
  | okTrue (partner_id : Nat) (cars : List Nat)
deriving Repr, DecidableEq

/-- The demo partner inserted by `admin_seed`. -/
def demoPartnerInput : PartnerInput :=
  { name := "Demo Rent", slug := some "demo-rent",
    site_url := some "https://demo-rent.example", city := some "Tashkent",
    phone := some "+998 90 000 00 00", commission_pct := 0 }

/-- The first demo car inserted by `admin_seed`. -/
def demoCar1Input (pid : Nat) : CarInput :=
  { partner_id := pid, external_id := some "demo-001",
    title := some "Chevrolet Cobalt", brand := some "Chevrolet",
    model := some "Cobalt", year := some 2021, car_class := some "economy",
    transmission := some "AT", fuel := some "petrol", seats := some 5,
    city := some "Tashkent", price_per_day := some 250000,
    currency := some "UZS", deposit := some 3000000,
    deposit_currency := some "UZS", with_driver := some false,
    free_km_per_day := some 200,
    photos := .arr ["https://picsum.photos/seed/cobalt/800/400"],
    conditions := .obj [("delivery", .str "on request")],
    source_url := some "https://demo-rent.example/cobalt",
    available := some true }

/-- The second demo car inserted by `admin_seed`. -/
def demoCar2Input (pid : Nat) : CarInput :=
  { partner_id := pid, external_id := some "demo-002",
    title := some "Chevrolet Malibu", brand := some "Chevrolet",
    model := some "Malibu", year := some 2022, car_class := some "comfort",
    transmission := some "AT", fuel := some "petrol", seats := some 5,
    city := some "Tashkent", price_per_day := some 400000,
    currency := some "UZS", deposit := some 5000000,
    deposit_currency := some "UZS", with_driver := some true,
    free_km_per_day := some 250,
    photos := .arr ["https://picsum.photos/seed/malibu/800/400"],
    conditions := .obj [("driver_included", .bool true)],
    source_url := some "https://demo-rent.example/malibu",
    available := some true }

/-- Endpoint `GET /admin/seed`: check `SEED_TOKEN` (Python truthiness: unset or
empty → 500), compare the query token (`!=` on an optional string),
check the pool, then run the partner upsert and the two car upserts.
Returns the response outcome and the resulting pool state. -/
def admin_seed (envToken : Option String) (token : Option String)
    (pool : Option DB) (now : Nat) : SeedOutcome × Option DB :=
  if envToken = none ∨ envToken = some "" then
    (.httpError 500 "SEED_TOKEN env not set", pool)
  else if token ≠ envToken then
    (.httpError 401 "bad token", pool)
  else
    match pool with
    | none => (.okFalse "DB pool is not initialized. Check DATABASE_URL.", none)
    | some db =>
      let rp := upsertPartner now db.partners db.nextPartnerId demoPartnerInput
      let pid := rp.2.2
      let rc1 := upsertCar now db.cars db.nextCarId (demoCar1Input pid)
      let rc2 := upsertCar now rc1.1 rc1.2.1 (demoCar2Input pid)
      (.okTrue pid [rc1.2.2, rc2.2.2],
       some { partners := rp.1, cars := rc2.1,
              nextPartnerId := rp.2.1, nextCarId := rc2.2.1 })

/-! ## Startup (`on_startup`, src/app.py lines 16-82) and `_dsn_fix`  -/

/-- Function `_dsn_fix` (src/app.py lines 120-126): falsy input returned as is;
a `postgres://` scheme rewritten to `postgresql://`. -/
def dsn_fix (url : Option String) : Option String :=
  match url with
  | none => none
  | some u =>
    if u = "" then some u
    else if startsWith u.toList ("postgres://".toList) then
      some (String.mk ("postgresql://".toList ++ u.toList.drop 11))
    else some u

/-- Application state after a completed startup event. -/
structure StartupState where
  pool : Option (List Car)
  provisioned : Bool
deriving Repr, DecidableEq

/-- Startup event `on_startup`: with a falsy `DB_URL` the pool is set to `None` and
provisioning is skipped; otherwise `asyncpg.create_pool` is awaited —
against reachable storage it yields a pool and the DDL runs, against
unreachable storage it raises (there is no exception handler), so the
startup event fails.  `store` is the current contents of the `cars`
table behind a reachable pool. -/
def on_startup (db_url : Option String) (reachable : Bool)
    (store : List Car) : Except String StartupState :=
  match db_url with
  | none => .ok { pool := none, provisioned := false }
  | some u =>
    if u = "" then .ok { pool := none, provisioned := false }
    else if reachable then .ok { pool := some store, provisioned := true }
    else .error "create_pool: connection refused"

/-! ## Module import order (src/app.py top level) -/

/-- A top-level Python statement, abstracted to the names it binds and
the names it reads: `bind n` is an import / `def` / decorated `def`
introducing `n`; `assign t uses` is `t = <expression>` whose evaluation
looks up each name in `uses`, in evaluation order. -/
inductive Stmt where
  | bind (name : String)
  | assign (target : String) (uses : List String)
deriving Repr, DecidableEq

/-- Run the top-level statements in order: a lookup of a name not yet
bound raises `NameError` and aborts the import. -/
def runStmts : List Stmt → List String → Except String (List String)
  | [], env => .ok env
  | .bind n :: rest, env => runStmts rest (n :: env)
  | .assign t uses :: rest, env =>
    match uses.find? (fun u => !env.contains u) with
    | some u => .error ("NameError: name " ++ u ++ " is not defined")
    | none => runStmts rest (t :: env)

/-- The top-level statements of src/app.py in source order.  Line 10
(`DB_URL = _dsn_fix(os.getenv("DATABASE_URL"))`) evaluates the callee
`_dsn_fix` first; `_dsn_fix` is only defined at line 120. -/
def appModule : List Stmt :=
  [.bind "os", .bind "asyncio", .bind "Optional", .bind "List",
   .bind "FastAPI", .bind "HTTPException", .bind "Query", .bind "asyncpg",
   .assign "app" ["FastAPI"],
   .assign "DB_URL" ["_dsn_fix", "os"],
   .bind "health", .bind "on_startup", .bind "on_shutdown", .bind "list_cars",
   .bind "Request", .bind "_dsn_fix", .bind "admin_seed"]

/-- Importing the module: run its top level in an empty environment. -/
def importApp : Except String (List String) :=
  runStmts appModule []

/-! ## Concrete rows and inputs used in witnesses and counterexamples -/

/-- An available economy car in Tashkent, price 100, without driver. -/
def carA : Car :=
  { id := 1, partner_id := 1, external_id := some "a",
    title := some "A", brand := none, model := none, year := none,
    car_class := some "economy", transmission := none, fuel := none,
    seats := none, city := some "Tashkent", price_per_day := some 100,
    currency := some "UZS", deposit := none, deposit_currency := none,
    with_driver := some false, free_km_per_day := none,
    photos := .arr [], conditions := .obj [], source_url := none,
    available := some true, updated_at := 5, created_at := 0 }

/-- An available comfort car in Samarkand, price 300, with driver. -/
def carB : Car :=
  { id := 2, partner_id := 1, external_id := some "b",
    title := some "B", brand := none, model := none, year := none,
    car_class := some "comfort", transmission := none, fuel := none,
    seats := none, city := some "Samarkand", price_per_day := some 300,
    currency := some "UZS", deposit := none, deposit_currency := none,
    with_driver := some true, free_km_per_day := none,
    photos := .arr [], conditions := .obj [], source_url := none,
    available := some true, updated_at := 9, created_at := 0 }

/-- An available car whose `city` column is NULL. -/
def carNullCity : Car :=
  { id := 3, partner_id := 1, external_id := some "c",
    title := some "C", brand := none, model := none, year := none,
    car_class := none, transmission := none, fuel := none,
    seats := none, city := none, price_per_day := some 50,
    currency := some "UZS", deposit := none, deposit_currency := none,
    with_driver := none, free_km_per_day := none,
    photos := .arr [], conditions := .obj [], source_url := none,
    available := some true, updated_at := 2, created_at := 0 }

/-- A car that never matches the base predicate (`available` is false). -/
def carUnavailable : Car :=
  { id := 4, partner_id := 1, external_id := some "d",
    title := some "D", brand := none, model := none, year := none,
    car_class := none, transmission := none, fuel := none,
    seats := none, city := some "Tashkent", price_per_day := some 70,
    currency := some "UZS", deposit := none, deposit_currency := none,
    with_driver := none, free_km_per_day := none,
    photos := .arr [], conditions := .obj [], source_url := none,
    available := some false, updated_at := 1, created_at := 0 }

/-- Re-ingestion of demo car 1 with a changed price. -/
def demoCar1v2 : CarInput :=
  { demoCar1Input 1 with price_per_day := some 99 }

/-- Re-ingestion of the demo partner with a changed phone number. -/
def demoPartnerV2 : PartnerInput :=
  { demoPartnerInput with phone := some "+998 91 111 11 11" }

/-! ## The listing order is a total preorder -/

instance : IsTotal Car carLE where
  total := by
    intro a b
    unfold carLE carLEb
    rcases ha : a.price_per_day with _ | p <;> rcases hb : b.price_per_day with _ | q <;>
      simp [ha, hb] <;> omega

instance : IsTrans Car carLE where
  trans := by
    intro a b c hab hbc
    unfold carLE carLEb at hab hbc ⊢
    rcases ha : a.price_per_day with _ | p <;> rcases hb : b.price_per_day with _ | q <;>
      rcases hc : c.price_per_day with _ | w <;>
      simp [ha, hb, hc] at hab hbc ⊢ <;> omega

/-! ## Helper lemmas -/

/-- Any row of a fetched listing page comes from the table and passes
the built WHERE clause. -/
theorem mem_rows (city cc : Option String) (mp : Option Int) (wd : Option Bool)
    {db : List Car} {lim off : Int} {rs : List Car} {c : Car}
    (h : list_cars_rows (some db) city cc mp wd lim off = some rs)
    (hc : c ∈ rs) :
    c ∈ db ∧ rowMatches city cc mp wd c = true := by
  unfold list_cars_rows at h
  by_cases hneg : lim < 0 ∨ off < 0
  · simp [hneg] at h
  · simp only [if_neg hneg, Option.some.injEq] at h
    subst h
    have h1 := List.mem_of_mem_take hc
    have h2 := List.mem_of_mem_drop h1
    have h3 := (List.perm_insertionSort carLE _).mem_iff.mp h2
    exact List.mem_filter.mp h3

/-- If no row matches the conflict key, the upsert is a plain insert of
the fresh row and returns the fresh serial. -/
theorem upsertGen_of_filter_nil {α : Type} (key : α → Bool) (upd : α → α)
    (mk : Nat → α) (getId : α → Nat) (tbl : List α) (nid : Nat)
    (h : tbl.filter key = []) :
    upsertGen key upd mk getId tbl nid = (tbl ++ [mk nid], nid + 1, nid) := by
  induction tbl with
  | nil => rfl
  | cons x t ih =>
    cases hk : key x with
    | true => rw [List.filter_cons_of_pos hk] at h; exact absurd h (by simp)
    | false =>
      rw [List.filter_cons_of_neg (by simp [hk])] at h
      simp [upsertGen, hk, ih h]

/-- If exactly the row `x` matches the conflict key, the upsert takes
the `DO UPDATE` path: afterwards exactly `upd x` matches the key, the
table length is unchanged, the serial is not consumed, and the returned
id is that of `x`. -/
theorem upsertGen_of_filter_single {α : Type} (key : α → Bool) (upd : α → α)
    (mk : Nat → α) (getId : α → Nat) (hupd : ∀ y, key (upd y) = key y)
    (tbl : List α) (nid : Nat) (x : α) (h : tbl.filter key = [x]) :
    ((upsertGen key upd mk getId tbl nid).1.filter key = [upd x] ∧
      (upsertGen key upd mk getId tbl nid).1.length = tbl.length) ∧
    (upsertGen key upd mk getId tbl nid).2.1 = nid ∧
    (upsertGen key upd mk getId tbl nid).2.2 = getId x := by
  induction tbl with
  | nil => simp at h
  | cons y t ih =>
    cases hk : key y with
    | true =>
      rw [List.filter_cons_of_pos hk] at h
      obtain ⟨rfl, ht⟩ : y = x ∧ t.filter key = [] := by simpa using h
      simp [upsertGen, hk, List.filter_cons, hupd y, ht]
    | false =>
      rw [List.filter_cons_of_neg (by simp [hk])] at h
      have := ih h
      simp [upsertGen, hk, List.filter_cons, this.1.1, this.1.2, this.2.1, this.2.2]

/-- When some row matches the conflict key, the fresh-row builder is
irrelevant: the upsert never inserts. -/
theorem upsertGen_mk_irrel {α : Type} (key : α → Bool) (upd : α → α)
    (mk mk' : Nat → α) (getId : α → Nat) (tbl : List α) (nid : Nat)
    (h : tbl.filter key ≠ []) :
    upsertGen key upd mk getId tbl nid = upsertGen key upd mk' getId tbl nid := by
  induction tbl with
  | nil => simp at h
  | cons y t ih =>
    cases hk : key y with
    | true => simp [upsertGen, hk]
    | false =>
      have ht : t.filter key ≠ [] := by
        rw [List.filter_cons_of_neg (by simp [hk])] at h; exact h
      simp [upsertGen, hk, ih ht]

/-- A table satisfying the `UNIQUE` constraint on the key has either no
matching row or exactly one. -/
theorem filter_nil_or_single {α : Type} (key : α → Bool) (tbl : List α)
    (h : tbl.countP key ≤ 1) :
    tbl.filter key = [] ∨ ∃ x, tbl.filter key = [x] := by
  rw [List.countP_eq_length_filter] at h
  rcases hf : tbl.filter key with _ | ⟨a, _ | ⟨b, t⟩⟩
  · exact Or.inl rfl
  · exact Or.inr ⟨a, rfl⟩
  · rw [hf] at h; simp at h

/-- With no pool, the listing endpoint short-circuits to `[]`. -/
theorem listCars_no_pool (city cc : Option String) (mp : Option Int)
    (wd : Option Bool) (lim off : Int) :
    list_cars none city cc mp wd lim off = some [] := by
  simp [list_cars, list_cars_rows]

/-! ## Claims -/

/-- C9: module initialization assigns `DB_URL` by calling `_dsn_fix` at
the top level (line 10) before `_dsn_fix` is defined (line 120), so
importing the module aborts with an unbound-name error — regardless of
the process environment, which is never consulted because the callee
lookup fails first — before any endpoint past `DB_URL` can be
registered or served. -/
theorem claim_C9 :
    importApp = Except.error "NameError: name _dsn_fix is not defined" := by
  rfl

/-- C4: `GET /admin/seed` — with no admin secret configured the request
fails with status 500; with a configured secret and a mismatched token
it fails with status 401 and leaves the storage state unchanged; with a
configured secret, a matching token and no initialized pool it returns
the 200 ok-false body instead of raising. -/
theorem claim_C4 (env tok : Option String) (pool : Option DB) (now : Nat) :
    (env = none →
      admin_seed env tok pool now = (.httpError 500 "SEED_TOKEN env not set", pool)) ∧
    (∀ s, env = some s → s ≠ "" → tok ≠ some s →
      admin_seed env tok pool now = (.httpError 401 "bad token", pool)) ∧
    (∀ s, env = some s → s ≠ "" → pool = none →
      admin_seed env (some s) pool now
        = (.okFalse "DB pool is not initialized. Check DATABASE_URL.", none)) := by
  refine ⟨?_, ?_, ?_⟩
  · intro h
    subst h
    simp [admin_seed]
  · intro s hs hne htok
    subst hs
    simp [admin_seed, hne, htok]
  · intro s hs hne hp
    subst hs
    subst hp
    simp [admin_seed, hne]

theorem claim_C4_witness :
    admin_seed none (some "x") none 0
      = (.httpError 500 "SEED_TOKEN env not set", none) ∧
    admin_seed (some "sec") (some "wrong") (some ⟨[], [], 1, 1⟩) 0
      = (.httpError 401 "bad token", some ⟨[], [], 1, 1⟩) ∧
    admin_seed (some "sec") (some "sec") none 0
      = (.okFalse "DB pool is not initialized. Check DATABASE_URL.", none) :=
  ⟨(claim_C4 none (some "x") none 0).1 rfl,
   (claim_C4 (some "sec") (some "wrong") (some ⟨[], [], 1, 1⟩) 0).2.1 "sec" rfl
     (by decide) (by decide),
   (claim_C4 (some "sec") (some "sec") none 0).2.2 "sec" rfl (by decide) rfl⟩

/-- C5: `GET /cars` returns an empty sequence with a success status when
the storage pool is not configured (for every filter and pagination
input, including invalid ones — the pool check precedes everything),
and returns an empty sequence, not an error, when no rows match. -/
theorem claim_C5 (city cc : Option String) (mp : Option Int) (wd : Option Bool)
    (lim off : Int) :
    list_cars none city cc mp wd lim off = some [] ∧
    (∀ db : List Car, 0 ≤ lim → 0 ≤ off →
      db.filter (rowMatches city cc mp wd) = [] →
      list_cars (some db) city cc mp wd lim off = some []) := by
  constructor
  · exact listCars_no_pool city cc mp wd lim off
  · intro db h1 h2 h3
    have hneg : ¬(lim < 0 ∨ off < 0) := by omega
    simp [list_cars, list_cars_rows, hneg, h3]

theorem claim_C5_witness :
    list_cars none (some "Tash") none none none (-3) 0 = some [] ∧
    list_cars (some [carUnavailable]) none none none none 20 0 = some [] :=
  ⟨(claim_C5 (some "Tash") none none none (-3) 0).1,
   (claim_C5 none none none none 20 0).2 [carUnavailable]
     (by decide) (by decide) (by decide)⟩

/-- C8 counterexample: with a storage DSN configured but the storage
unreachable, `on_startup` raises out of `asyncpg.create_pool` (there is
no handler), so schema provisioning is not "skipped with the service
continuing" — the startup event fails.  The skip-and-degrade path only
exists for a falsy `DB_URL`. -/
theorem claim_C8_counterexample :
    on_startup (some "postgresql://db.internal/rentuz") false []
      = .error "create_pool: connection refused" := by
  rfl

/-- C8 (amended): if no storage DSN is configured (`DATABASE_URL` unset
or empty), schema provisioning is skipped and the service continues in
a degraded mode in which the data-dependent listing endpoint returns an
empty result; if a DSN is configured but storage is unreachable, pool
creation raises and the startup event fails instead. -/
theorem claim_C8_amended (e : Option String) (reachable : Bool) (store : List Car)
    (city cc : Option String) (mp : Option Int) (wd : Option Bool) (lim off : Int) :
    (e = none ∨ e = some "" →
      on_startup e reachable store = .ok { pool := none, provisioned := false } ∧
      list_cars none city cc mp wd lim off = some []) ∧
    (∀ u : String, u ≠ "" →
      on_startup (some u) false store = .error "create_pool: connection refused") := by
  constructor
  · rintro (rfl | rfl)
    · exact ⟨rfl, listCars_no_pool city cc mp wd lim off⟩
    · exact ⟨rfl, listCars_no_pool city cc mp wd lim off⟩
  · intro u hu
    simp [on_startup, hu]

theorem claim_C8_witness :
    on_startup none true [] = .ok { pool := none, provisioned := false } ∧
    list_cars none none none none none 20 0 = some [] ∧
    on_startup (some "postgresql://h/db") false [] = .error "create_pool: connection refused" := by
  refine ⟨?_, ?_, ?_⟩
  · exact ((claim_C8_amended none true [] none none none none 20 0).1 (Or.inl rfl)).1
  · exact ((claim_C8_amended none true [] none none none none 20 0).1 (Or.inl rfl)).2
  · exact (claim_C8_amended (some "postgresql://h/db") false [] none none none none 20 0).2
      "postgresql://h/db" (by decide)

/-- C1 counterexample: supplying the city filter as the empty string
(`?city=`), a row with a NULL city is returned by the listing query —
`if city:` treats `""` as absent, so no clause is emitted — although
that row does not satisfy "the city of the row contains the city input
case-insensitively". -/
theorem claim_C1_counterexample :
    list_cars_rows (some [carNullCity]) (some "") none none none 20 0
      = some [carNullCity] ∧
    ¬ ∃ cs, carNullCity.city = some cs ∧ containsCI cs "" = true := by
  constructor
  · rfl
  · rintro ⟨cs, hcs, -⟩
    simp [carNullCity] at hcs

/-- C1 (amended): for every filter combination, every row returned by
the listing query satisfies `available = true` and every supplied
predicate, where a string filter (city, class) counts as supplied only
when it is non-empty: city containment (case-insensitive), class
containment (case-insensitive), `price_per_day ≤ max_price`, and
`with_driver` equality; absent filters impose no constraint. -/
theorem claim_C1_amended (city cc : Option String) (mp : Option Int)
    (wd : Option Bool) (db : List Car) (lim off : Int) (rs : List Car) (c : Car)
    (h : list_cars_rows (some db) city cc mp wd lim off = some rs)
    (hc : c ∈ rs) :
    c.available = some true ∧
    (∀ s, city = some s → s ≠ "" →
      ∃ cs, c.city = some cs ∧ containsCI cs s = true) ∧
    (∀ s, cc = some s → s ≠ "" →
      ∃ cs, c.car_class = some cs ∧ containsCI cs s = true) ∧
    (∀ p, mp = some p → ∃ q, c.price_per_day = some q ∧ q ≤ p) ∧
    (∀ b, wd = some b → c.with_driver = some b) := by
  obtain ⟨-, hm⟩ := mem_rows city cc mp wd h hc
  simp only [rowMatches, Bool.and_eq_true] at hm
  obtain ⟨⟨⟨⟨hav, hcity⟩, hclass⟩, hprice⟩, hdrv⟩ := hm
  refine ⟨by simpa using hav, ?_, ?_, ?_, ?_⟩
  · intro s hs hne
    subst hs
    rw [show strFilterActive (some s) = some s from by simp [strFilterActive, hne]] at hcity
    unfold cityMatch at hcity
    rcases hcc : c.city with _ | cs
    · rw [hcc] at hcity; simp at hcity
    · rw [hcc] at hcity; exact ⟨cs, rfl, hcity⟩
  · intro s hs hne
    subst hs
    rw [show strFilterActive (some s) = some s from by simp [strFilterActive, hne]] at hclass
    unfold classMatch at hclass
    rcases hcc : c.car_class with _ | cs
    · rw [hcc] at hclass; simp at hclass
    · rw [hcc] at hclass; exact ⟨cs, rfl, hclass⟩
  · intro p hp
    subst hp
    unfold priceMatch at hprice
    rcases hq : c.price_per_day with _ | q
    · rw [hq] at hprice; simp at hprice
    · rw [hq] at hprice
      exact ⟨q, rfl, by simpa using hprice⟩
  · intro b hb
    subst hb
    simpa [driverMatch] using hdrv

theorem claim_C1_witness :
    carA.available = some true ∧
    (∃ cs, carA.city = some cs ∧ containsCI cs "tash" = true) ∧
    (∃ q, carA.price_per_day = some q ∧ q ≤ 200) ∧
    carA.with_driver = some false := by
  have h := claim_C1_amended (some "tash") none (some 200) (some false)
    [carA] 20 0 [carA] carA rfl (by simp)
  exact ⟨h.1, h.2.1 "tash" rfl (by decide), h.2.2.2.1 200 rfl, h.2.2.2.2 false rfl⟩

/-- C6: every fetched listing page is sorted by `carLE` — ascending
`price_per_day` with NULL prices last, ties and NULL-price ties broken
by descending `updated_at` — for every filter combination, including no
filters at all: the `ORDER BY` clause is appended unconditionally. -/
theorem claim_C6 (city cc : Option String) (mp : Option Int) (wd : Option Bool)
    (db : List Car) (lim off : Int) (rs : List Car)
    (h : list_cars_rows (some db) city cc mp wd lim off = some rs) :
    List.Sorted carLE rs := by
  unfold list_cars_rows at h
  by_cases hneg : lim < 0 ∨ off < 0
  · simp [hneg] at h
  · simp only [if_neg hneg, Option.some.injEq] at h
    subst h
    exact List.Pairwise.sublist
      ((List.take_sublist _ _).trans (List.drop_sublist _ _))
      (List.sorted_insertionSort carLE _)

theorem claim_C6_witness : List.Sorted carLE [carA, carB] :=
  claim_C6 none none none none [carB, carA] 20 0 [carA, carB] (by rfl)

/-- C7: `limit=0` yields an empty page, and an `offset` beyond the
number of matching rows yields an empty page, never an error, for every
stored inventory and filter combination. -/
theorem claim_C7 (city cc : Option String) (mp : Option Int) (wd : Option Bool)
    (db : List Car) (lim off : Int) (h0 : 0 ≤ off) (h1 : 0 ≤ lim) :
    list_cars (some db) city cc mp wd 0 off = some [] ∧
    ((db.filter (rowMatches city cc mp wd)).length < off.toNat →
      list_cars (some db) city cc mp wd lim off = some []) := by
  constructor
  · have hneg : ¬((0 : Int) < 0 ∨ off < 0) := by omega
    simp [list_cars, list_cars_rows, hneg]
    omega
  · intro hlen
    have hneg : ¬(lim < 0 ∨ off < 0) := by omega
    have hdrop :
        ((db.filter (rowMatches city cc mp wd)).insertionSort carLE).drop off.toNat
          = [] := by
      apply List.drop_eq_nil_of_le
      rw [List.length_insertionSort]
      omega
    simp [list_cars, list_cars_rows, hneg, hdrop]

theorem claim_C7_witness :
    list_cars (some [carA]) none none none none 0 0 = some [] ∧
    list_cars (some [carA]) none none none none 20 99 = some [] :=
  ⟨(claim_C7 none none none none [carA] 20 0 (by decide) (by decide)).1,
   (claim_C7 none none none none [carA] 20 99 (by decide) (by decide)).2 (by decide)⟩

/-- C10: in the listing query the string filters city and class are
treated as absent when they are the empty string (they contribute no
clause, so a NULL-city row is still returned), whereas `with_driver`
and `max_price` are treated as present for every non-null value,
including `False` and `0`, and applied as real constraints. -/
theorem claim_C10 :
    (∀ cc mp wd c, rowMatches (some "") cc mp wd c = rowMatches none cc mp wd c) ∧
    (∀ city mp wd c, rowMatches city (some "") mp wd c = rowMatches city none mp wd c) ∧
    (∀ city cc mp b c, rowMatches city cc mp (some b) c = true →
      c.with_driver = some b) ∧
    (∀ city cc p wd c, rowMatches city cc (some p) wd c = true →
      ∃ q, c.price_per_day = some q ∧ q ≤ p) ∧
    rowMatches (some "") none none none carNullCity = true ∧
    rowMatches none none none (some false) carB = false ∧
    rowMatches none none (some 0) none carA = false := by
  refine ⟨?_, ?_, ?_, ?_, by decide, by decide, by decide⟩
  · intro cc mp wd c
    simp [rowMatches, strFilterActive]
  · intro city mp wd c
    simp [rowMatches, strFilterActive]
  · intro city cc mp b c hm
    simp only [rowMatches, Bool.and_eq_true] at hm
    simpa [driverMatch] using hm.2
  · intro city cc p wd c hm
    simp only [rowMatches, Bool.and_eq_true] at hm
    have hp := hm.1.2
    unfold priceMatch at hp
    rcases hq : c.price_per_day with _ | q
    · rw [hq] at hp; simp at hp
    · rw [hq] at hp
      exact ⟨q, rfl, by simpa using hp⟩

theorem claim_C10_witness :
    carA.with_driver = some false ∧
    (∃ q, carA.price_per_day = some q ∧ q ≤ 150) :=
  ⟨claim_C10.2.2.1 none none none false carA (by decide),
   claim_C10.2.2.2.1 none none 150 none carA (by decide)⟩

/-- C2: upserting two car inputs with the same non-null
`(partner_id, external_id)` key into a table honouring the `UNIQUE`
constraint leaves exactly one car row for that key; the second upsert
rewrites all 19 mutable fields to the values of the second input and
refreshes `updated_at`, does not grow the table (no duplicate row), and
returns the same stable id as the first upsert. -/
theorem claim_C2 (inp1 inp2 : CarInput) (tbl : List Car) (nid now1 now2 : Nat)
    (hpid : inp1.partner_id = inp2.partner_id)
    (heid : inp1.external_id = inp2.external_id)
    (hsome : inp2.external_id.isSome = true)
    (huniq : tbl.countP (carKey inp2) ≤ 1) :
    (∃ c : Car,
      (upsertCar now2 (upsertCar now1 tbl nid inp1).1
          (upsertCar now1 tbl nid inp1).2.1 inp2).1.filter (carKey inp2) = [c] ∧
      carMut c = carInputMut inp2 ∧ c.updated_at = now2) ∧
    (upsertCar now2 (upsertCar now1 tbl nid inp1).1
        (upsertCar now1 tbl nid inp1).2.1 inp2).1.length
      = (upsertCar now1 tbl nid inp1).1.length ∧
    (upsertCar now2 (upsertCar now1 tbl nid inp1).1
        (upsertCar now1 tbl nid inp1).2.1 inp2).2.2
      = (upsertCar now1 tbl nid inp1).2.2 := by
  have hkeyeq : carKey inp1 = carKey inp2 := by
    funext c
    rw [carKey, carKey, hpid, heid]
  have hupd1 : ∀ y, carKey inp2 (carUpd now1 inp1 y) = carKey inp2 y :=
    fun _ => rfl
  have hupd2 : ∀ y, carKey inp2 (carUpd now2 inp2 y) = carKey inp2 y :=
    fun _ => rfl
  unfold upsertCar
  rw [hkeyeq]
  rcases filter_nil_or_single (carKey inp2) tbl huniq with hnil | ⟨x, hone⟩
  · have hr1 := upsertGen_of_filter_nil (carKey inp2) (carUpd now1 inp1)
      (carNew now1 inp1) Car.id tbl nid hnil
    have e1 : (upsertGen (carKey inp2) (carUpd now1 inp1) (carNew now1 inp1)
        Car.id tbl nid).1 = tbl ++ [carNew now1 inp1 nid] := by rw [hr1]
    have e2 : (upsertGen (carKey inp2) (carUpd now1 inp1) (carNew now1 inp1)
        Car.id tbl nid).2.1 = nid + 1 := by rw [hr1]
    have e3 : (upsertGen (carKey inp2) (carUpd now1 inp1) (carNew now1 inp1)
        Car.id tbl nid).2.2 = nid := by rw [hr1]
    rw [e1, e2, e3]
    have hkeymk : carKey inp2 (carNew now1 inp1 nid) = true := by
      simp [carKey, carNew, hpid, heid, hsome]
    have hfil : (tbl ++ [carNew now1 inp1 nid]).filter (carKey inp2)
        = [carNew now1 inp1 nid] := by
      rw [List.filter_append, hnil, List.filter_cons_of_pos hkeymk]
      rfl
    have h2 := upsertGen_of_filter_single (carKey inp2) (carUpd now2 inp2)
      (carNew now2 inp2) Car.id hupd2 (tbl ++ [carNew now1 inp1 nid]) (nid + 1)
      (carNew now1 inp1 nid) hfil
    refine ⟨⟨carUpd now2 inp2 (carNew now1 inp1 nid), h2.1.1, rfl, rfl⟩,
      ?_, ?_⟩
    · rw [h2.1.2]
    · rw [h2.2.2]
      rfl
  · have h1 := upsertGen_of_filter_single (carKey inp2) (carUpd now1 inp1)
      (carNew now1 inp1) Car.id hupd1 tbl nid x hone
    have h2 := upsertGen_of_filter_single (carKey inp2) (carUpd now2 inp2)
      (carNew now2 inp2) Car.id hupd2
      (upsertGen (carKey inp2) (carUpd now1 inp1) (carNew now1 inp1)
        Car.id tbl nid).1
      (upsertGen (carKey inp2) (carUpd now1 inp1) (carNew now1 inp1)
        Car.id tbl nid).2.1
      (carUpd now1 inp1 x) h1.1.1
    refine ⟨⟨carUpd now2 inp2 (carUpd now1 inp1 x), h2.1.1, rfl, rfl⟩,
      h2.1.2, ?_⟩
    rw [h2.2.2, h1.2.2]
    rfl

theorem claim_C2_witness :
    (∃ c : Car,
      (upsertCar 8 (upsertCar 3 [] 1 (demoCar1Input 1)).1
          (upsertCar 3 [] 1 (demoCar1Input 1)).2.1 demoCar1v2).1.filter
        (carKey demoCar1v2) = [c] ∧
      carMut c = carInputMut demoCar1v2 ∧ c.updated_at = 8) ∧
    (upsertCar 8 (upsertCar 3 [] 1 (demoCar1Input 1)).1
        (upsertCar 3 [] 1 (demoCar1Input 1)).2.1 demoCar1v2).1.length
      = (upsertCar 3 [] 1 (demoCar1Input 1)).1.length ∧
    (upsertCar 8 (upsertCar 3 [] 1 (demoCar1Input 1)).1
        (upsertCar 3 [] 1 (demoCar1Input 1)).2.1 demoCar1v2).2.2
      = (upsertCar 3 [] 1 (demoCar1Input 1)).2.2 :=
  claim_C2 (demoCar1Input 1) demoCar1v2 [] 1 3 8 rfl rfl rfl (by decide)

/-- C3 counterexample: the partner upsert refreshes no timestamp — the
`partners` table has no `updated_at` column and the `DO UPDATE SET`
list touches no time-valued column.  Concretely: after seeding the demo
partner at time 0 and re-upserting it at time 5 with a changed phone,
the single resulting row carries the latest values but its only
timestamp, `created_at`, still reads 0; moreover the result of the
second upsert is identical whatever the clock says (time 5 or 777), so
nothing "refreshed" can depend on the upsert time. -/
theorem claim_C3_counterexample :
    (upsertPartner 5 (upsertPartner 0 [] 1 demoPartnerInput).1
        (upsertPartner 0 [] 1 demoPartnerInput).2.1 demoPartnerV2).1
      = [{ id := 1, name := "Demo Rent", slug := some "demo-rent",
           site_url := some "https://demo-rent.example", tg_contact := none,
           city := some "Tashkent", phone := some "+998 91 111 11 11",
           commission_pct := 0, is_active := true, created_at := 0 }] ∧
    upsertPartner 5 (upsertPartner 0 [] 1 demoPartnerInput).1
        (upsertPartner 0 [] 1 demoPartnerInput).2.1 demoPartnerV2
      = upsertPartner 777 (upsertPartner 0 [] 1 demoPartnerInput).1
        (upsertPartner 0 [] 1 demoPartnerInput).2.1 demoPartnerV2 := by
  exact ⟨rfl, rfl⟩

/-- C3 (amended): upserting the same non-null partner slug twice into a
table honouring the `UNIQUE (slug)` constraint leaves exactly one
partner row for that slug, carrying the latest values of the mutable
fields (`name`, `site_url`, `city`, `phone`, `commission_pct`), without
growing the table, and returns the same stable id; but no timestamp is
refreshed: the `partners` table has no `updated_at` column and the
outcome of the second upsert is independent of the upsert time. -/
theorem claim_C3_amended (inp1 inp2 : PartnerInput) (tbl : List Partner)
    (nid now1 now2 : Nat)
    (hslug : inp1.slug = inp2.slug) (hsome : inp2.slug.isSome = true)
    (huniq : tbl.countP (partnerKey inp2) ≤ 1) :
    (∃ p : Partner,
      (upsertPartner now2 (upsertPartner now1 tbl nid inp1).1
          (upsertPartner now1 tbl nid inp1).2.1 inp2).1.filter
        (partnerKey inp2) = [p] ∧
      partnerMut p = partnerInputMut inp2) ∧
    (upsertPartner now2 (upsertPartner now1 tbl nid inp1).1
        (upsertPartner now1 tbl nid inp1).2.1 inp2).1.length
      = (upsertPartner now1 tbl nid inp1).1.length ∧
    (upsertPartner now2 (upsertPartner now1 tbl nid inp1).1
        (upsertPartner now1 tbl nid inp1).2.1 inp2).2.2
      = (upsertPartner now1 tbl nid inp1).2.2 ∧
    (∀ t : Nat, upsertPartner t (upsertPartner now1 tbl nid inp1).1
        (upsertPartner now1 tbl nid inp1).2.1 inp2
      = upsertPartner now2 (upsertPartner now1 tbl nid inp1).1
        (upsertPartner now1 tbl nid inp1).2.1 inp2) := by
  have hkeyeq : partnerKey inp1 = partnerKey inp2 := by
    funext p
    rw [partnerKey, partnerKey, hslug]
  have hupd1 : ∀ y, partnerKey inp2 (partnerUpd inp1 y) = partnerKey inp2 y :=
    fun _ => rfl
  have hupd2 : ∀ y, partnerKey inp2 (partnerUpd inp2 y) = partnerKey inp2 y :=
    fun _ => rfl
  unfold upsertPartner
  rw [hkeyeq]
  rcases filter_nil_or_single (partnerKey inp2) tbl huniq with hnil | ⟨x, hone⟩
  · have hr1 := upsertGen_of_filter_nil (partnerKey inp2) (partnerUpd inp1)
      (partnerNew now1 inp1) Partner.id tbl nid hnil
    have e1 : (upsertGen (partnerKey inp2) (partnerUpd inp1)
        (partnerNew now1 inp1) Partner.id tbl nid).1
        = tbl ++ [partnerNew now1 inp1 nid] := by rw [hr1]
    have e2 : (upsertGen (partnerKey inp2) (partnerUpd inp1)
        (partnerNew now1 inp1) Partner.id tbl nid).2.1 = nid + 1 := by rw [hr1]
    have e3 : (upsertGen (partnerKey inp2) (partnerUpd inp1)
        (partnerNew now1 inp1) Partner.id tbl nid).2.2 = nid := by rw [hr1]
    rw [e1, e2, e3]
    have hkeymk : partnerKey inp2 (partnerNew now1 inp1 nid) = true := by
      simp [partnerKey, partnerNew, hslug, hsome]
    have hfil : (tbl ++ [partnerNew now1 inp1 nid]).filter (partnerKey inp2)
        = [partnerNew now1 inp1 nid] := by
      rw [List.filter_append, hnil, List.filter_cons_of_pos hkeymk]
      rfl
    have h2 := upsertGen_of_filter_single (partnerKey inp2) (partnerUpd inp2)
      (partnerNew now2 inp2) Partner.id hupd2
      (tbl ++ [partnerNew now1 inp1 nid]) (nid + 1)
      (partnerNew now1 inp1 nid) hfil
    refine ⟨⟨partnerUpd inp2 (partnerNew now1 inp1 nid), h2.1.1, rfl⟩,
      ?_, ?_, ?_⟩
    · rw [h2.1.2]
    · rw [h2.2.2]
      rfl
    · intro t
      exact upsertGen_mk_irrel (partnerKey inp2) (partnerUpd inp2)
        (partnerNew t inp2) (partnerNew now2 inp2) Partner.id _ _
        (by rw [hfil]; exact List.cons_ne_nil _ _)
  · have h1 := upsertGen_of_filter_single (partnerKey inp2) (partnerUpd inp1)
      (partnerNew now1 inp1) Partner.id hupd1 tbl nid x hone
    have h2 := upsertGen_of_filter_single (partnerKey inp2) (partnerUpd inp2)
      (partnerNew now2 inp2) Partner.id hupd2
      (upsertGen (partnerKey inp2) (partnerUpd inp1) (partnerNew now1 inp1)
        Partner.id tbl nid).1
      (upsertGen (partnerKey inp2) (partnerUpd inp1) (partnerNew now1 inp1)
        Partner.id tbl nid).2.1
      (partnerUpd inp1 x) h1.1.1
    refine ⟨⟨partnerUpd inp2 (partnerUpd inp1 x), h2.1.1, rfl⟩,
      h2.1.2, ?_, ?_⟩
    · rw [h2.2.2, h1.2.2]
      rfl
    · intro t
      exact upsertGen_mk_irrel (partnerKey inp2) (partnerUpd inp2)
        (partnerNew t inp2) (partnerNew now2 inp2) Partner.id _ _
        (by rw [h1.1.1]; exact List.cons_ne_nil _ _)

theorem claim_C3_witness :
    (∃ p : Partner,
      (upsertPartner 5 (upsertPartner 0 [] 1 demoPartnerInput).1
          (upsertPartner 0 [] 1 demoPartnerInput).2.1 demoPartnerV2).1.filter
        (partnerKey demoPartnerV2) = [p] ∧
      partnerMut p = partnerInputMut demoPartnerV2) ∧
    (upsertPartner 5 (upsertPartner 0 [] 1 demoPartnerInput).1
        (upsertPartner 0 [] 1 demoPartnerInput).2.1 demoPartnerV2).1.length
      = (upsertPartner 0 [] 1 demoPartnerInput).1.length ∧
    (upsertPartner 5 (upsertPartner 0 [] 1 demoPartnerInput).1
        (upsertPartner 0 [] 1 demoPartnerInput).2.1 demoPartnerV2).2.2
      = (upsertPartner 0 [] 1 demoPartnerInput).2.2 ∧
    (∀ t : Nat, upsertPartner t (upsertPartner 0 [] 1 demoPartnerInput).1
        (upsertPartner 0 [] 1 demoPartnerInput).2.1 demoPartnerV2
      = upsertPartner 5 (upsertPartner 0 [] 1 demoPartnerInput).1
        (upsertPartner 0 [] 1 demoPartnerInput).2.1 demoPartnerV2) :=
  claim_C3_amended demoPartnerInput demoPartnerV2 [] 1 0 5 rfl rfl (by decide)

end RentCar
